import Mathlib

/-!
Shallow embedding of the Shega complaint-management backend
(complaint lifecycle, technician directory, auth lockout, notification
fan-out) together with theorems settling the frozen claims.

Conventions of the embedding:
* Prisma rows become Lean structures; the database is a record of lists.
* Timestamps (`Date` values) are epoch milliseconds, modelled as `Nat`.
* A service method `m(args)` that may `throw` becomes a function
  `m : DB → args → DB × Except AppError α`; the returned `DB` is the
  persistent state after the call (unchanged when the method throws
  before any write, as in the source).
* JS string truthiness (empty string falsy) is modelled explicitly.
* bcrypt hashing is out of scope: the stored `password` field is the
  plain credential and `bcrypt.compare` is string equality.
-/

namespace Shega

/-- `Role` enum of the prisma schema. -/
inductive Role
  | RESIDENT
  | ADMIN
  | TECHNICIAN
deriving DecidableEq, Repr

/-- `ComplaintStatus` enum of the prisma schema. -/
inductive ComplaintStatus
  | SUBMITTED
  | ASSIGNED
  | IN_PROGRESS
  | RESOLVED
  | REJECTED
deriving DecidableEq, Repr

/-- `Priority` enum of the prisma schema (complaint urgency). -/
inductive Priority
  | LOW
  | MEDIUM
  | HIGH
  | EMERGENCY
deriving DecidableEq, Repr

/-- `ComplaintCategory` enum of the prisma schema. -/
inductive ComplaintCategory
  | WATER_LEAK
  | NO_WATER
  | DIRTY_WATER
  | SANITATION
  | PIPE_BURST
  | DRAINAGE
deriving DecidableEq, Repr

/-- `TechnicianStatus` enum of the prisma schema. -/
inductive TechnicianStatus
  | ACTIVE
  | INACTIVE
  | ON_LEAVE
deriving DecidableEq, Repr

/-- `ReceiptStatus` enum of the prisma schema. -/
inductive ReceiptStatus
  | UNREAD
  | READ
deriving DecidableEq, Repr

/-- `Audience` enum of the prisma schema. -/
inductive Audience
  | ALL
  | RESIDENT
  | TECHNICIAN
  | SPECIFIC
deriving DecidableEq, Repr

/-- `User` row (fields relevant to the claims; `password` holds the stored
credential, see file header). -/
structure User where
  id : Nat
  email : String
  password : String
  role : Role
  loginAttempts : Nat
  lastLoginAttempt : Option Nat
  lastLogin : Option Nat
deriving DecidableEq, Repr

/-- `locationData` payload of `CreateComplaintDto` (numeric coordinates are
modelled as integers; no claim depends on their arithmetic). -/
structure LocationData where
  latitude : Int
  longitude : Int
  address : Option String
  accuracy : Option Int
deriving DecidableEq, Repr

/-- `Complaint` row of the prisma schema. -/
structure Complaint where
  id : Nat
  userId : Nat
  title : String
  description : String
  category : ComplaintCategory
  urgency : Priority
  location : Option LocationData
  photos : List String
  status : ComplaintStatus
  assignedAt : Option Nat
  resolvedAt : Option Nat
  adminNotes : Option String
  createdAt : Nat
  updatedAt : Nat
deriving DecidableEq, Repr

/-- `Task` row of the prisma schema. By the schema's foreign key,
`technicianId` references `Technician.id`. -/
structure Task where
  id : Nat
  complaintId : Nat
  technicianId : Nat
  assignedAt : Nat
  updatedAt : Nat
deriving DecidableEq, Repr

/-- `Technician` row of the prisma schema (wraps a `User` via `userId`). -/
structure Technician where
  id : Nat
  userId : Nat
  status : TechnicianStatus
deriving DecidableEq, Repr

/-- `Notification` row of the prisma schema. -/
structure Notification where
  id : Nat
  title : String
  message : String
  audience : Audience
  createdById : Nat
deriving DecidableEq, Repr

/-- `notification_receipts` row of the prisma schema (serial `id` elided;
the unique key is the `(notificationId, userId)` pair). -/
structure NotificationReceipt where
  notificationId : Nat
  userId : Nat
  status : ReceiptStatus
  readAt : Option Nat
deriving DecidableEq, Repr

/-- The persistent store: one list per table plus serial-id counters. -/
structure DB where
  users : List User
  complaints : List Complaint
  technicians : List Technician
  tasks : List Task
  notifications : List Notification
  receipts : List NotificationReceipt
  nextComplaintId : Nat
  nextTaskId : Nat
  nextNotificationId : Nat
deriving DecidableEq, Repr

/-- The NestJS exception classes thrown by the services, plus `DbError`
standing for a failure of the underlying store on a write. -/
inductive AppError
  | NotFoundException (msg : String)
  | BadRequestException (msg : String)
  | UnauthorizedException (msg : String)
  | DbError
deriving DecidableEq, Repr

deriving instance DecidableEq for Except

/-- Is this error a `NotFoundException`? -/
def AppError.isNotFound : AppError → Bool
  | .NotFoundException _ => true
  | _ => false

/-- Did this result throw a `NotFoundException`? -/
def Except.errorIsNotFound {α : Type} : Except AppError α → Bool
  | .error e => e.isNotFound
  | .ok _ => false

/-- JS `String.prototype.trim()`, implemented over the character list so
that it evaluates definitionally on literals. -/
def jsTrim (s : String) : String :=
  ⟨((s.data.dropWhile Char.isWhitespace).reverse.dropWhile Char.isWhitespace).reverse⟩

/-- JS `String.prototype.toLowerCase()` (ASCII fragment), over the
character list. -/
def jsToLower (s : String) : String :=
  ⟨s.data.map Char.toLower⟩

/-- JS truthiness of an optional string: `undefined`, `null` and `""`
are falsy. -/
def jsStrTruthy : Option String → Bool
  | none => false
  | some s => !s.isEmpty

/-- `prisma.user.findUnique({ where: { id } })`. -/
def DB.findUser (db : DB) (id : Nat) : Option User :=
  db.users.find? (fun u => u.id == id)

/-- `prisma.user.findUnique({ where: { email } })`. -/
def DB.findUserByEmail (db : DB) (email : String) : Option User :=
  db.users.find? (fun u => u.email == email)

/-- `prisma.complaint.findUnique({ where: { id } })`. -/
def DB.findComplaint (db : DB) (id : Nat) : Option Complaint :=
  db.complaints.find? (fun c => c.id == id)

/-- `prisma.technician.findUnique({ where: { id } })`. -/
def DB.findTechnician (db : DB) (id : Nat) : Option Technician :=
  db.technicians.find? (fun t => t.id == id)

/-- `prisma.complaint.update({ where: { id }, data })`: rewrite the row
with the matching id. -/
def DB.updateComplaint (db : DB) (id : Nat) (f : Complaint → Complaint) : DB :=
  { db with complaints := db.complaints.map (fun c => if c.id == id then f c else c) }

/-- `prisma.user.update({ where: { id }, data })`. -/
def DB.updateUser (db : DB) (id : Nat) (f : User → User) : DB :=
  { db with users := db.users.map (fun u => if u.id == id then f u else u) }

/-- Raw request body of `POST /complaints` (`CreateComplaintDto`). The
handlers read `category` and `urgency` as plain strings (no global
validation pipe is installed in `main.ts`), so both are optional raw
strings here. -/
structure CreateComplaintDto where
  title : String
  description : String
  category : Option String
  urgency : Option String
  locationData : Option LocationData
  photos : List String
deriving DecidableEq, Repr

/-- `Object.values(ComplaintCategory).includes(dto.category)` — parse the
raw category string against the enum. -/
def parseCategory : String → Option ComplaintCategory
  | "WATER_LEAK" => some .WATER_LEAK
  | "NO_WATER" => some .NO_WATER
  | "DIRTY_WATER" => some .DIRTY_WATER
  | "SANITATION" => some .SANITATION
  | "PIPE_BURST" => some .PIPE_BURST
  | "DRAINAGE" => some .DRAINAGE
  | _ => none

/-- Own property names of `Object.prototype`: a property access on a
plain object literal that misses the literal's own keys continues along
the prototype chain and hits these, each yielding a truthy value (a
function; for `__proto__`, the prototype object itself). -/
def objectProtoKeys : List String :=
  ["constructor", "hasOwnProperty", "isPrototypeOf", "propertyIsEnumerable",
   "toLocaleString", "toString", "valueOf", "__defineGetter__",
   "__defineSetter__", "__lookupGetter__", "__lookupSetter__", "__proto__"]

/-- Result of the JS property access `urgencyMap[key]` on the object
literal in `ComplaintsService.create`: an own key yields its `Priority`
string, a key inherited from `Object.prototype` yields a truthy
non-Priority value, and any other key yields the falsy `undefined`. -/
inductive UrgencyLookup
  | priority (p : Priority)
  | inherited
  | missing
deriving DecidableEq, Repr

/-- The `urgencyMap` object-literal lookup, prototype chain included:
the four exact lowercase own keys first, then the `Object.prototype`
property names. -/
def urgencyMap (s : String) : UrgencyLookup :=
  if s = "low" then .priority .LOW
  else if s = "medium" then .priority .MEDIUM
  else if s = "high" then .priority .HIGH
  else if s = "emergency" then .priority .EMERGENCY
  else if s ∈ objectProtoKeys then .inherited
  else .missing

/-- `urgencyMap[dto.urgency] || Priority.MEDIUM`: a JS property key is
coerced to a string, so an absent `urgency` accesses the key
`"undefined"`. Only the falsy `undefined` result is replaced by MEDIUM;
an own-key `Priority` (a non-empty string, truthy) survives as `some p`,
and a truthy value inherited from `Object.prototype` also survives —
modelled as `none`, the non-Priority value that then flows into the
`prisma.complaint.create` call. -/
def mapUrgency (u : Option String) : Option Priority :=
  match urgencyMap (match u with | none => "undefined" | some s => s) with
  | .priority p => some p
  | .inherited => none
  | .missing => some .MEDIUM

/-- `ComplaintsService.create`. The checks run in source order: user
existence, blank title, blank description, missing category, category
enum membership; only then is the complaint row written with
status `SUBMITTED`. Photo upload is a no-op pass-through in the source
(cloudinary call commented out). When the urgency lookup survives `||`
with a value inherited from `Object.prototype` (`mapUrgency = none`),
that non-enum value reaches `prisma.complaint.create`, whose validation
throws; the catch block rethrows it as
`BadRequestException "Failed to create complaint"` and nothing is
written. For the `BadRequestException`s thrown before the write, the
try/catch is the identity. -/
def ComplaintsService.create (db : DB) (userId : Nat) (dto : CreateComplaintDto)
    (now : Nat) : DB × Except AppError Complaint :=
  match db.findUser userId with
  | none => (db, .error (.BadRequestException "User not found"))
  | some _ =>
    if (jsTrim dto.title).isEmpty then
      (db, .error (.BadRequestException "Title is required"))
    else if (jsTrim dto.description).isEmpty then
      (db, .error (.BadRequestException "Description is required"))
    else if !jsStrTruthy dto.category then
      (db, .error (.BadRequestException "Category is required"))
    else
      match parseCategory ((dto.category).getD "") with
      | none => (db, .error (.BadRequestException "Invalid category"))
      | some cat =>
        match mapUrgency dto.urgency with
        | none => (db, .error (.BadRequestException "Failed to create complaint"))
        | some urgency =>
        let c : Complaint :=
          { id := db.nextComplaintId
            userId := userId
            title := jsTrim dto.title
            description := jsTrim dto.description
            category := cat
            urgency := urgency
            location := dto.locationData
            photos := dto.photos
            status := .SUBMITTED
            assignedAt := none
            resolvedAt := none
            adminNotes := none
            createdAt := now
            updatedAt := now }
        ({ db with
            complaints := db.complaints ++ [c]
            nextComplaintId := db.nextComplaintId + 1 }, .ok c)

/-- The row update performed by `ComplaintsService.updateComplaintStatus`:
always sets `status` and `updatedAt`; sets `resolvedAt` only when the new
status is `RESOLVED` (and never clears it); sets `adminNotes` only when
the argument is truthy. -/
def updateStatusData (status : ComplaintStatus) (adminNotes : Option String)
    (now : Nat) (c : Complaint) : Complaint :=
  let c1 := { c with status := status, updatedAt := now }
  let c2 := if status = .RESOLVED then { c1 with resolvedAt := some now } else c1
  if jsStrTruthy adminNotes then { c2 with adminNotes := adminNotes } else c2

/-- `ComplaintsService.updateComplaintStatus`. -/
def ComplaintsService.updateComplaintStatus (db : DB) (id : Nat)
    (status : ComplaintStatus) (adminNotes : Option String) (now : Nat) :
    DB × Except AppError Complaint :=
  match db.findComplaint id with
  | none => (db, .error (.NotFoundException s!"Complaint with ID {id} not found"))
  | some c =>
    (db.updateComplaint id (updateStatusData status adminNotes now),
     .ok (updateStatusData status adminNotes now c))

/-- `ComplaintsService.assignTechnician`: verify the complaint and an
ACTIVE technician, update the complaint to `ASSIGNED` stamping
`assignedAt`, then update the first existing task of the complaint in
place or create a fresh one. -/
def ComplaintsService.assignTechnician (db : DB) (complaintId technicianId now : Nat) :
    DB × Except AppError Task :=
  match db.findComplaint complaintId with
  | none =>
    (db, .error (.NotFoundException s!"Complaint with ID {complaintId} not found"))
  | some _ =>
    match db.findTechnician technicianId with
    | none =>
      (db, .error (.NotFoundException s!"Technician with ID {technicianId} not found"))
    | some technician =>
      if technician.status ≠ .ACTIVE then
        (db, .error (.BadRequestException s!"Technician with ID {technicianId} is not active"))
      else
        let db1 := db.updateComplaint complaintId
          (fun c => { c with status := .ASSIGNED, assignedAt := some now })
        match db1.tasks.find? (fun t => t.complaintId == complaintId) with
        | some existingTask =>
          let t1 := { existingTask with
                        technicianId := technicianId
                        assignedAt := now
                        updatedAt := now }
          ({ db1 with
              tasks := db1.tasks.map (fun t => if t.id == existingTask.id then t1 else t) },
           .ok t1)
        | none =>
          let t1 : Task :=
            { id := db1.nextTaskId
              complaintId := complaintId
              technicianId := technicianId
              assignedAt := now
              updatedAt := now }
          ({ db1 with
              tasks := db1.tasks ++ [t1]
              nextTaskId := db1.nextTaskId + 1 }, .ok t1)

/-- `ComplaintsService.updateComplaintStatus` with failure injection: the
single `prisma.complaint.update` write is numbered 0 and fails when
`fail 0` is true, in which case nothing is written (a failed statement
leaves the store as it was). -/
def ComplaintsService.updateComplaintStatusF (fail : Nat → Bool) (db : DB) (id : Nat)
    (status : ComplaintStatus) (adminNotes : Option String) (now : Nat) :
    DB × Except AppError Complaint :=
  match db.findComplaint id with
  | none => (db, .error (.NotFoundException s!"Complaint with ID {id} not found"))
  | some c =>
    if fail 0 then (db, .error .DbError)
    else
      (db.updateComplaint id (updateStatusData status adminNotes now),
       .ok (updateStatusData status adminNotes now c))

/-- `ComplaintsService.assignTechnician` with failure injection. The source
runs its two persistence writes sequentially with no transaction: write 0
is the `complaint.update` to `ASSIGNED`, write 1 the `task.update` or
`task.create`. A failing write leaves the store as produced by the writes
before it. -/
def ComplaintsService.assignTechnicianF (fail : Nat → Bool) (db : DB)
    (complaintId technicianId now : Nat) : DB × Except AppError Task :=
  match db.findComplaint complaintId with
  | none =>
    (db, .error (.NotFoundException s!"Complaint with ID {complaintId} not found"))
  | some _ =>
    match db.findTechnician technicianId with
    | none =>
      (db, .error (.NotFoundException s!"Technician with ID {technicianId} not found"))
    | some technician =>
      if technician.status ≠ .ACTIVE then
        (db, .error (.BadRequestException s!"Technician with ID {technicianId} is not active"))
      else if fail 0 then (db, .error .DbError)
      else
        let db1 := db.updateComplaint complaintId
          (fun c => { c with status := .ASSIGNED, assignedAt := some now })
        match db1.tasks.find? (fun t => t.complaintId == complaintId) with
        | some existingTask =>
          if fail 1 then (db1, .error .DbError)
          else
            let t1 := { existingTask with
                          technicianId := technicianId
                          assignedAt := now
                          updatedAt := now }
            ({ db1 with
                tasks := db1.tasks.map (fun t => if t.id == existingTask.id then t1 else t) },
             .ok t1)
        | none =>
          if fail 1 then (db1, .error .DbError)
          else
            let t1 : Task :=
              { id := db1.nextTaskId
                complaintId := complaintId
                technicianId := technicianId
                assignedAt := now
                updatedAt := now }
            ({ db1 with
                tasks := db1.tasks ++ [t1]
                nextTaskId := db1.nextTaskId + 1 }, .ok t1)

/-- The digit run at the head of a character list. -/
def leadingDigits (cs : List Char) : List Char :=
  cs.takeWhile (fun c => c.isDigit)

/-- Decimal value of a digit list. -/
def digitsToNat (cs : List Char) : Nat :=
  cs.foldl (fun a c => a * 10 + (c.toNat - 48)) 0

/-- JS `parseInt(s, 10)`: skip leading whitespace, read an optional sign
and then the longest leading digit run; no digits means `NaN`, modelled
as `none`. -/
def jsParseInt (s : String) : Option Int :=
  match (jsTrim s).data with
  | '-' :: rest =>
    let d := leadingDigits rest
    if d.isEmpty then none else some (-(digitsToNat d : Int))
  | '+' :: rest =>
    let d := leadingDigits rest
    if d.isEmpty then none else some (digitsToNat d : Int)
  | cs =>
    let d := leadingDigits cs
    if d.isEmpty then none else some (digitsToNat d : Int)

/-- Integer fragment of JS `Number(s)`: an empty or all-whitespace string
converts to 0, an optionally signed all-digit string to its value, and
anything else to `NaN` (`none`). Fractional and exponent forms are outside
the inputs any claim mentions. -/
def jsNumberInt (s : String) : Option Int :=
  let t := jsTrim s
  if t.isEmpty then some 0
  else match t.data with
  | '-' :: rest =>
    if !rest.isEmpty && rest.all (fun c => c.isDigit) then
      some (-(digitsToNat rest : Int))
    else none
  | '+' :: rest =>
    if !rest.isEmpty && rest.all (fun c => c.isDigit) then
      some (digitsToNat rest : Int)
    else none
  | cs =>
    if cs.all (fun c => c.isDigit) then some (digitsToNat cs : Int) else none

/-- `page ? parseInt(page, 10) : dflt` of `getAllComplaints` /
`getAssignedComplaints`: an absent or empty (falsy) parameter takes the
default, otherwise `parseInt` runs (`none` = `NaN`). -/
def queryParamParse (p : Option String) (dflt : Int) : Option Int :=
  match p with
  | none => some dflt
  | some s => if !s.isEmpty then jsParseInt s else some dflt

/-- `ComplaintsController.getAllComplaints` query-parameter handling: the
page/limit pair handed to `complaintsService.getAllComplaints`, or the
thrown `BadRequestException`. The source checks `isNaN` on both values and
then only the `limit` range; `page` has no range check. -/
def ComplaintsController.getAllComplaintsParams (page limit : Option String) :
    Except AppError (Int × Int) :=
  match queryParamParse page 1, queryParamParse limit 10 with
  | some pageNum, some limitNum =>
    if limitNum < 1 || limitNum > 100 then
      .error (.BadRequestException "Limit must be between 1 and 100")
    else .ok (pageNum, limitNum)
  | _, _ => .error (.BadRequestException "Page and limit must be numeric values")

/-- JS `v || d` on a number: `NaN` (here `none`) and `0` are falsy and
yield the default. -/
def jsOrDefault (v : Option Int) (d : Int) : Int :=
  match v with
  | none => d
  | some n => if n = 0 then d else n

/-- `ComplaintsController.getUserComplaints` query-parameter handling:
`Number(page) || 1` and `Number(limit) || 10` (absent parameters default
to the number 1 resp. 10 before conversion), then clamping
`finalPage = max(1, pageNum)` and `finalLimit = min(max(1, limitNum), 100)`.
The source's `isNaN` re-check is unreachable because `|| default` already
replaced `NaN`, so this handler never throws. -/
def ComplaintsController.getUserComplaintsParams (page limit : Option String) :
    Except AppError (Int × Int) :=
  let pageNum := jsOrDefault (match page with
    | none => some 1
    | some s => jsNumberInt s) 1
  let limitNum := jsOrDefault (match limit with
    | none => some 10
    | some s => jsNumberInt s) 10
  let finalPage := max 1 pageNum
  let finalLimit := min (max 1 limitNum) 100
  .ok (finalPage, finalLimit)

/-- `MAX_LOGIN_ATTEMPTS` of `AuthService`. -/
def AuthService.MAX_LOGIN_ATTEMPTS : Nat := 5

/-- `LOGIN_TIMEOUT_MINUTES` of `AuthService`, in milliseconds. -/
def AuthService.LOGIN_TIMEOUT_MS : Nat := 15 * 60 * 1000

/-- Body of `POST /auth/login`. -/
structure LoginDto where
  email : String
  password : String
deriving DecidableEq, Repr

/-- `dto.email.toLowerCase().trim()`. -/
def normalizeEmail (s : String) : String := jsTrim (jsToLower s)

/-- `Math.ceil(LOGIN_TIMEOUT_MINUTES - minutesSinceLastAttempt)` where
`minutesSinceLastAttempt = elapsedMs / 60000`: the ceiling of the
remaining lock time in minutes, computed exactly in `Nat`. -/
def lockRemainingMinutes (elapsedMs : Nat) : Nat :=
  (AuthService.LOGIN_TIMEOUT_MS - elapsedMs + 59999) / 60000

/-- The lock message of `AuthService.login`. -/
def lockMessage (elapsedMs : Nat) : String :=
  s!"Account temporarily locked. Try again in {lockRemainingMinutes elapsedMs} minutes"

/-- `AuthService.handleFailedLogin`: increment the counter and stamp the
attempt time, a no-op when no user has the email. -/
def AuthService.handleFailedLogin (db : DB) (email : String) (now : Nat) : DB :=
  match db.findUserByEmail email with
  | none => db
  | some u =>
    db.updateUser u.id (fun w =>
      { w with loginAttempts := w.loginAttempts + 1, lastLoginAttempt := some now })

/-- `AuthService.resetLoginAttempts`. -/
def AuthService.resetLoginAttempts (db : DB) (userId : Nat) : DB :=
  db.updateUser userId (fun w => { w with loginAttempts := 0, lastLoginAttempt := none })

/-- The tail of `AuthService.login` after the lock check: compare the
password (bcrypt compare modelled as equality with the stored credential,
against the `user` object read at the start of the call), then on success
reset the attempt counter and stamp `lastLogin`. -/
def AuthService.loginTail (db : DB) (user : User) (dto : LoginDto)
    (normalizedEmail : String) (now : Nat) : DB × Except AppError Unit :=
  if dto.password ≠ user.password then
    (AuthService.handleFailedLogin db normalizedEmail now,
     .error (.UnauthorizedException "Invalid credentials"))
  else
    let db1 := AuthService.resetLoginAttempts db user.id
    let db2 := db1.updateUser user.id (fun w => { w with lastLogin := some now })
    (db2, .ok ())

/-- `AuthService.login`: argument presence check, user lookup by
normalized email, the lockout window check (`loginAttempts ≥ 5` and a
truthy `lastLoginAttempt` less than 15 minutes old throws; an expired
window resets the counter and proceeds), then password check. -/
def AuthService.login (db : DB) (dto : LoginDto) (now : Nat) :
    DB × Except AppError Unit :=
  if dto.email.isEmpty || dto.password.isEmpty then
    (db, .error (.BadRequestException "Email and password are required"))
  else
    let normalizedEmail := normalizeEmail dto.email
    match db.findUserByEmail normalizedEmail with
    | none =>
      (AuthService.handleFailedLogin db normalizedEmail now,
       .error (.UnauthorizedException "Invalid credentials"))
    | some user =>
      match user.lastLoginAttempt with
      | some t =>
        if user.loginAttempts ≥ AuthService.MAX_LOGIN_ATTEMPTS then
          if now - t < AuthService.LOGIN_TIMEOUT_MS then
            (db, .error (.UnauthorizedException (lockMessage (now - t))))
          else
            AuthService.loginTail (AuthService.resetLoginAttempts db user.id)
              user dto normalizedEmail now
        else AuthService.loginTail db user dto normalizedEmail now
      | none => AuthService.loginTail db user dto normalizedEmail now

/-- The `complaint: { status: { in: ['ASSIGNED', 'IN_PROGRESS'] } }`
relation filter of the active-task count in
`TechniciansService.deleteTechnician`. -/
def complaintStatusActive (db : DB) (complaintId : Nat) : Bool :=
  match db.findComplaint complaintId with
  | some c => c.status == .ASSIGNED || c.status == .IN_PROGRESS
  | none => false

/-- `TechniciansService.deleteTechnician`. The active-task count filters on
`technicianId: technician.userId`, transliterated exactly from the source
(note that `Task.technicianId` references `Technician.id`, not a user id).
When the count is zero the linked user's role is set back to `RESIDENT`
and the technician row is deleted. -/
def TechniciansService.deleteTechnician (db : DB) (id : Nat) :
    DB × Except AppError Unit :=
  match db.findTechnician id with
  | none => (db, .error (.NotFoundException s!"Technician with ID {id} not found"))
  | some technician =>
    let activeTasks := (db.tasks.filter (fun t =>
      t.technicianId == technician.userId && complaintStatusActive db t.complaintId)).length
    if activeTasks > 0 then
      (db, .error (.BadRequestException
        "Cannot delete technician with active tasks. Reassign tasks first."))
    else
      let db1 := db.updateUser technician.userId (fun u => { u with role := .RESIDENT })
      ({ db1 with technicians := db1.technicians.filter (fun t => !(t.id == id)) },
       .ok ())

/-- In-memory registry of `NotificationsGateway`: `connectedUsers` is the
userId → socketId map (as an association list), `adminSockets` the set of
admin socket ids. -/
structure GatewayState where
  connectedUsers : List (Nat × String)
  adminSockets : List String
deriving DecidableEq, Repr

/-- `this.connectedUsers.get(userId)`. -/
def GatewayState.getSocket (gw : GatewayState) (userId : Nat) : Option String :=
  (gw.connectedUsers.find? (fun p => p.1 == userId)).map (fun p => p.2)

/-- Payload of the `send-notification` gateway message. -/
structure SendNotificationData where
  targetUserIds : List Nat
  title : String
  message : String
  audience : Audience
deriving DecidableEq, Repr

/-- `NotificationsGateway.handleSendNotification`: admins only; persists
one `Notification` with one receipt per `targetUserIds` entry (the nested
`receipts.create` passes no status, so the schema default `UNREAD`
applies; `createdById` is the hardcoded 1); then pushes to each target
with a live socket, counting successes. Returns the reported
`sentCount`. -/
def NotificationsGateway.handleSendNotification (gw : GatewayState) (db : DB)
    (socketId : String) (data : SendNotificationData) : DB × Except AppError Nat :=
  if !(gw.adminSockets.contains socketId) then
    (db, .error (.UnauthorizedException "Only admins can send notifications"))
  else
    let nid := db.nextNotificationId
    let notification : Notification :=
      { id := nid
        title := data.title
        message := data.message
        audience := data.audience
        createdById := 1 }
    let newReceipts := data.targetUserIds.map (fun uid =>
      ({ notificationId := nid
         userId := uid
         status := .UNREAD
         readAt := none } : NotificationReceipt))
    let db1 := { db with
      notifications := db.notifications ++ [notification]
      receipts := db.receipts ++ newReceipts
      nextNotificationId := nid + 1 }
    let sentCount :=
      (data.targetUserIds.filter (fun uid => (gw.getSocket uid).isSome)).length
    (db1, .ok sentCount)

/-- One lifecycle mutation of a complaint, as named by C1. -/
inductive LifecycleOp
  | createOp (userId : Nat) (dto : CreateComplaintDto) (now : Nat)
  | assignOp (complaintId technicianId now : Nat)
  | updateOp (complaintId : Nat) (status : ComplaintStatus)
      (adminNotes : Option String) (now : Nat)

/-- Run one lifecycle operation, keeping the resulting store. -/
def applyLifecycleOp (db : DB) : LifecycleOp → DB
  | .createOp u dto now => (ComplaintsService.create db u dto now).1
  | .assignOp c t now => (ComplaintsService.assignTechnician db c t now).1
  | .updateOp c st notes now => (ComplaintsService.updateComplaintStatus db c st notes now).1

/-- Run a sequence of lifecycle operations. -/
def applyLifecycleOps (db : DB) : List LifecycleOp → DB
  | [] => db
  | op :: ops => applyLifecycleOps (applyLifecycleOp db op) ops

/-- The direction of the C1 invariant that the code maintains: a RESOLVED
complaint has `resolvedAt` set. -/
def resolvedInvB (c : Complaint) : Bool :=
  !(c.status == .RESOLVED) || c.resolvedAt.isSome

/-- Run `AuthService.login` with fixed credentials at each time in the
list, threading the store. -/
def loginRuns (db : DB) (e pw : String) : List Nat → DB
  | [] => db
  | t :: ts => loginRuns ((AuthService.login db ⟨e, pw⟩ t).1) e pw ts

/-- An empty store used by several concrete scenarios. -/
def c6Db : DB :=
  { users := [], complaints := [], technicians := [], tasks := [],
    notifications := [], receipts := [], nextComplaintId := 1,
    nextTaskId := 1, nextNotificationId := 1 }

/-- A well-formed complaint payload. -/
def c6Dto : CreateComplaintDto :=
  { title := "Broken pipe", description := "Pipe burst on main street",
    category := some "PIPE_BURST", urgency := some "high",
    locationData := none, photos := [] }

/-- Resident user 1 used by concrete scenarios. -/
def resident1 : User :=
  { id := 1, email := "res@example.com", password := "pw12345678",
    role := .RESIDENT, loginAttempts := 0, lastLoginAttempt := none,
    lastLogin := none }

/-- A store holding only resident 1. -/
def c10UserDb : DB :=
  { c6Db with users := [resident1] }

/-- A payload whose urgency is the uppercase string "HIGH". -/
def c10Dto : CreateComplaintDto :=
  { title := "T", description := "D", category := some "DRAINAGE",
    urgency := some "HIGH", locationData := none, photos := [] }

/-- The complaint row `create c10UserDb 1 c10Dto 0` writes: the uppercase
urgency fell back to MEDIUM. -/
def c10Created : Complaint :=
  { id := 1, userId := 1, title := "T", description := "D",
    category := .DRAINAGE, urgency := .MEDIUM, location := none,
    photos := [], status := .SUBMITTED, assignedAt := none,
    resolvedAt := none, adminNotes := none, createdAt := 0, updatedAt := 0 }

/-- The complaint creation payload of the C1 scenario. -/
def c1Dto : CreateComplaintDto :=
  { title := "Leak", description := "Water leak in basement",
    category := some "WATER_LEAK", urgency := some "high",
    locationData := none, photos := [] }

/-- The C1 scenario: create a complaint, resolve it, then move it back to
SUBMITTED (no validation prevents the backward transition). -/
def c1DbFinal : DB :=
  applyLifecycleOps c10UserDb
    [.createOp 1 c1Dto 0, .updateOp 1 .RESOLVED none 1000,
     .updateOp 1 .SUBMITTED none 2000]

/-- A submitted complaint owned by resident 1. -/
def submittedComplaint : Complaint :=
  { id := 1, userId := 1, title := "Leak", description := "Water leak",
    category := .WATER_LEAK, urgency := .HIGH, location := none,
    photos := [], status := .SUBMITTED, assignedAt := none,
    resolvedAt := none, adminNotes := none, createdAt := 0, updatedAt := 0 }

/-- An INACTIVE technician (id 9, wrapping user 2). -/
def c3Technician : Technician := { id := 9, userId := 2, status := .INACTIVE }

/-- Store for the C3 witness: a complaint and an INACTIVE technician. -/
def c3Db : DB :=
  { c6Db with
    users := [resident1], complaints := [submittedComplaint],
    technicians := [c3Technician] }

/-- Two ACTIVE technicians for the C2 witness. -/
def c2TechA : Technician := { id := 1, userId := 2, status := .ACTIVE }

/-- Second ACTIVE technician for the C2 witness. -/
def c2TechB : Technician := { id := 7, userId := 3, status := .ACTIVE }

/-- Store for the C2 witness: one complaint, technicians 1 and 7, no
tasks. -/
def c2Db : DB :=
  { c6Db with
    users := [resident1], complaints := [submittedComplaint],
    technicians := [c2TechA, c2TechB] }

/-- Store for the C8 counterexample: complaint 1 and ACTIVE technician 1,
no tasks. -/
def c8Db : DB :=
  { c6Db with
    users := [resident1], complaints := [submittedComplaint],
    technicians := [c2TechA] }

/-- Failure oracle that fails exactly the second write (the Task write)
of `assignTechnicianF`. -/
def c8fail : Nat → Bool := fun n => n == 1

/-- The technician-role user behind the C9 technician. -/
def c9TechUser : User :=
  { id := 2, email := "tech@example.com", password := "pw12345678",
    role := .TECHNICIAN, loginAttempts := 0, lastLoginAttempt := none,
    lastLogin := none }

/-- An ASSIGNED complaint for the C9 scenario. -/
def c9Complaint : Complaint :=
  { id := 10, userId := 1, title := "Leak", description := "Leak",
    category := .WATER_LEAK, urgency := .HIGH, location := none,
    photos := [], status := .ASSIGNED, assignedAt := some 0,
    resolvedAt := none, adminNotes := none, createdAt := 0, updatedAt := 0 }

/-- The C9 technician: row id 1, wrapping user 2 (so `id ≠ userId`). -/
def c9Technician : Technician := { id := 1, userId := 2, status := .ACTIVE }

/-- The task binding complaint 10 to technician row 1, exactly as
`assignTechnician` writes it (`technicianId` = `Technician.id`). -/
def c9Task : Task :=
  { id := 5, complaintId := 10, technicianId := 1, assignedAt := 0, updatedAt := 0 }

/-- Store for C9: technician 1 has the active task `c9Task` (its
complaint is ASSIGNED). -/
def c9Db : DB :=
  { c6Db with
    users := [c9TechUser, resident1], complaints := [c9Complaint],
    technicians := [c9Technician], tasks := [c9Task],
    nextComplaintId := 11, nextTaskId := 6 }

/-- The locked-out user of the C7 witness. -/
def c7User : User :=
  { id := 1, email := "a@b.co", password := "goodpass1", role := .RESIDENT,
    loginAttempts := 0, lastLoginAttempt := none, lastLogin := none }

/-- Store for the C7 witness. -/
def c7Db : DB := { c6Db with users := [c7User] }

/-! ## Helper lemmas -/

/-- `find?` commutes with mapping a function that does not change the
predicate's verdict. -/
theorem find?_map_invariant {α : Type} (p : α → Bool) (g : α → α)
    (hg : ∀ x, p (g x) = p x) (l : List α) :
    (l.map g).find? p = (l.find? p).map g := by
  induction l with
  | nil => rfl
  | cons x xs ih =>
    by_cases hx : p x = true
    · rw [List.map_cons, List.find?_cons_of_pos _ (by rw [hg]; exact hx),
        List.find?_cons_of_pos _ hx, Option.map_some']
    · rw [List.map_cons, List.find?_cons_of_neg _ (by rw [hg]; exact hx),
        List.find?_cons_of_neg _ hx, ih]

/-- Looking up the updated id after `DB.updateComplaint` returns the
mapped row. -/
theorem findComplaint_updateComplaint (db : DB) (id : Nat) (f : Complaint → Complaint)
    (hf : ∀ c, (f c).id = c.id) :
    (db.updateComplaint id f).findComplaint id = (db.findComplaint id).map f := by
  unfold DB.updateComplaint DB.findComplaint
  dsimp only
  rw [find?_map_invariant (fun c => c.id == id)
    (fun c => if c.id == id then f c else c)
    (fun c => by by_cases h : (c.id == id) = true <;> simp [h, hf])]
  cases h : List.find? (fun c => c.id == id) db.complaints with
  | none => rfl
  | some c => rw [Option.map_some', Option.map_some', if_pos (List.find?_some h)]

/-- Looking up an email after `DB.updateUser` with an email-preserving
update returns the conditionally mapped row. -/
theorem findUserByEmail_updateUser (db : DB) (uid : Nat) (e : String)
    (f : User → User) (hf : ∀ u, (f u).email = u.email) :
    (db.updateUser uid f).findUserByEmail e =
      (db.findUserByEmail e).map (fun u => if u.id == uid then f u else u) := by
  show (db.users.map _).find? _ = _
  exact find?_map_invariant (fun u => u.email == e)
    (fun u => if u.id == uid then f u else u)
    (fun u => by by_cases h : (u.id == uid) = true <;> simp [h, hf]) _

/-! ## C4 — notification broadcast -/

/-- C4: for a broadcast whose resolved audience is 3 target user ids of
which exactly 1 is registered in the connection registry, the operation
reports a delivered count of 1 while creating exactly 3 receipt rows,
one per target, all with status UNREAD. -/
theorem c4_broadcast_receipts (gw : GatewayState) (db : DB) (socketId : String)
    (data : SendNotificationData)
    (hadmin : gw.adminSockets.contains socketId = true)
    (hlen : data.targetUserIds.length = 3)
    (hreg : (data.targetUserIds.filter
      (fun uid => (gw.getSocket uid).isSome)).length = 1) :
    (NotificationsGateway.handleSendNotification gw db socketId data).2 = .ok 1 ∧
    (NotificationsGateway.handleSendNotification gw db socketId data).1.receipts =
      db.receipts ++ data.targetUserIds.map (fun uid =>
        ({ notificationId := db.nextNotificationId, userId := uid,
           status := .UNREAD, readAt := none } : NotificationReceipt)) ∧
    (NotificationsGateway.handleSendNotification gw db socketId data).1.receipts.length =
      db.receipts.length + 3 := by
  unfold NotificationsGateway.handleSendNotification
  rw [hadmin]
  refine ⟨?_, rfl, ?_⟩
  · show Except.ok ((data.targetUserIds.filter
      (fun uid => (gw.getSocket uid).isSome)).length) = Except.ok 1
    rw [hreg]
  · show (db.receipts ++ data.targetUserIds.map _).length = db.receipts.length + 3
    rw [List.length_append, List.length_map, hlen]

/-- C4 witness: a concrete broadcast to targets 1, 2, 3 with only user 2
connected. -/
theorem c4_broadcast_receipts_witness :
    (NotificationsGateway.handleSendNotification
        ⟨[(2, "sock2")], ["adminSock"]⟩ c6Db "adminSock"
        ⟨[1, 2, 3], "Hi", "Msg", .SPECIFIC⟩).2 = .ok 1 ∧
    (NotificationsGateway.handleSendNotification
        ⟨[(2, "sock2")], ["adminSock"]⟩ c6Db "adminSock"
        ⟨[1, 2, 3], "Hi", "Msg", .SPECIFIC⟩).1.receipts =
      c6Db.receipts ++ [1, 2, 3].map (fun uid =>
        ({ notificationId := c6Db.nextNotificationId, userId := uid,
           status := .UNREAD, readAt := none } : NotificationReceipt)) ∧
    (NotificationsGateway.handleSendNotification
        ⟨[(2, "sock2")], ["adminSock"]⟩ c6Db "adminSock"
        ⟨[1, 2, 3], "Hi", "Msg", .SPECIFIC⟩).1.receipts.length =
      c6Db.receipts.length + 3 :=
  c4_broadcast_receipts _ _ _ _ (by decide) (by decide) (by decide)

/-! ## C6 — create with a missing resident -/

/-- C6 counterexample: creating a complaint for the non-existent resident
42 throws `BadRequestException "User not found"` — the same exception
class as the validation failures — and not a `NotFoundException` as the
claim states. No row is written. -/
theorem c6_counterexample :
    ComplaintsService.create c6Db 42 c6Dto 0 =
      (c6Db, .error (.BadRequestException "User not found")) ∧
    Except.errorIsNotFound (ComplaintsService.create c6Db 42 c6Dto 0).2 = false :=
  ⟨rfl, rfl⟩

/-- C6 amended: when the resident id matches no user, `create` throws
`BadRequestException "User not found"` (a 400, distinguishable from the
other validation 400s only by its message) before any write, so the store
is unchanged and no Complaint row is created. -/
theorem c6_amended (db : DB) (userId : Nat) (dto : CreateComplaintDto) (now : Nat)
    (h : db.findUser userId = none) :
    ComplaintsService.create db userId dto now =
      (db, .error (.BadRequestException "User not found")) := by
  unfold ComplaintsService.create
  rw [h]

/-- C6 amended witness: the concrete missing resident 42. -/
theorem c6_amended_witness :
    ComplaintsService.create c6Db 42 c6Dto 5 =
      (c6Db, .error (.BadRequestException "User not found")) :=
  c6_amended c6Db 42 c6Dto 5 rfl

/-! ## C9 — deleting a technician with active tasks -/

/-- C9: the delete guard is evaluated against the wrong key. Technician 1
(row id 1, userId 2) has exactly one active task — `c9Task.technicianId`
is the `Technician.id` 1, as `assignTechnician` writes it and as the
schema's foreign key dictates — yet `deleteTechnician` succeeds (and even
demotes user 2 to RESIDENT), because its guard counts tasks whose
`technicianId` equals `technician.userId = 2`. -/
theorem c9_delete_with_active_task_succeeds :
    (c9Db.tasks.filter (fun t =>
      t.technicianId == c9Technician.id
        && complaintStatusActive c9Db t.complaintId)).length = 1 ∧
    (TechniciansService.deleteTechnician c9Db 1).2 = .ok () ∧
    (TechniciansService.deleteTechnician c9Db 1).1.technicians = [] ∧
    ((TechniciansService.deleteTechnician c9Db 1).1.findUser 2).map User.role =
      some .RESIDENT :=
  ⟨rfl, rfl, rfl, rfl⟩

/-! ## C10 — urgency mapping and the prototype chain -/

/-- C10 counterexample: the urgency string "constructor" names a property
inherited from `Object.prototype`, so `urgencyMap["constructor"]` is a
truthy non-Priority value and `|| Priority.MEDIUM` does not apply; the
value reaches the prisma write, which rejects it, and create fails with
the catch-all `BadRequestException "Failed to create complaint"` with no
row written — the string is neither silently mapped to MEDIUM nor
accepted. -/
theorem c10_counterexample :
    mapUrgency (some "constructor") = none ∧
    ComplaintsService.create c10UserDb 1
      { c10Dto with urgency := some "constructor" } 0 =
      (c10UserDb, .error (.BadRequestException "Failed to create complaint")) :=
  ⟨by decide, by decide⟩

/-- C10 amended: an urgency string outside the exact lowercase set and
outside the `Object.prototype` property names — including uppercase
spellings such as "HIGH" and absent values — is silently mapped to
MEDIUM, and an exact lowercase key maps to its priority; a successfully
created complaint always stores the mapped priority. But a string naming
an inherited `Object.prototype` property ("constructor", "toString",
"__proto__", ...) is not defaulted: the inherited truthy value survives
the `||`, the prisma write rejects it, and create fails with
`BadRequestException "Failed to create complaint"`, leaving the store
unchanged. -/
theorem c10_urgency_amended :
    (mapUrgency none = some .MEDIUM) ∧
    (mapUrgency (some "HIGH") = some .MEDIUM) ∧
    (∀ s : String, s ∉ (["low", "medium", "high", "emergency"] : List String) →
      s ∉ objectProtoKeys → mapUrgency (some s) = some .MEDIUM) ∧
    (mapUrgency (some "low") = some .LOW ∧
      mapUrgency (some "medium") = some .MEDIUM ∧
      mapUrgency (some "high") = some .HIGH ∧
      mapUrgency (some "emergency") = some .EMERGENCY) ∧
    (∀ s : String, s ∈ objectProtoKeys → mapUrgency (some s) = none) ∧
    (∀ (db : DB) (userId : Nat) (dto : CreateComplaintDto) (now : Nat)
        (c : Complaint),
      (ComplaintsService.create db userId dto now).2 = .ok c →
      some c.urgency = mapUrgency dto.urgency) ∧
    (∀ (db : DB) (userId : Nat) (dto : CreateComplaintDto) (now : Nat),
      mapUrgency dto.urgency = none →
      (ComplaintsService.create db userId dto now).1 = db ∧
      (ComplaintsService.create db userId dto now).2.isOk = false) := by
  refine ⟨rfl, by decide, ?_, ⟨rfl, rfl, rfl, rfl⟩, ?_, ?_, ?_⟩
  · intro s hs hp
    simp only [List.mem_cons, List.not_mem_nil, or_false, not_or] at hs
    simp [mapUrgency, urgencyMap, hs.1, hs.2.1, hs.2.2.1, hs.2.2.2, hp]
  · intro s hs
    simp only [objectProtoKeys, List.mem_cons, List.not_mem_nil, or_false] at hs
    rcases hs with rfl | rfl | rfl | rfl | rfl | rfl | rfl | rfl | rfl | rfl |
      rfl | rfl <;> decide
  · intro db userId dto now c h
    unfold ComplaintsService.create at h
    split at h
    · exact absurd h (by simp)
    · split at h
      · exact absurd h (by simp)
      · split at h
        · exact absurd h (by simp)
        · split at h
          · exact absurd h (by simp)
          · split at h
            · exact absurd h (by simp)
            · split at h
              · exact absurd h (by simp)
              · rename_i urgency heq
                rw [← Except.ok.inj h, heq]
  · intro db userId dto now hnone
    unfold ComplaintsService.create
    cases db.findUser userId
    · exact ⟨rfl, rfl⟩
    · dsimp only
      split
      · exact ⟨rfl, rfl⟩
      · split
        · exact ⟨rfl, rfl⟩
        · split
          · exact ⟨rfl, rfl⟩
          · cases parseCategory (dto.category.getD "")
            · exact ⟨rfl, rfl⟩
            · rw [hnone]
              exact ⟨rfl, rfl⟩

/-- C10 amended witness: an unknown non-prototype urgency string maps to
MEDIUM; "toString" hits the prototype chain; the concrete creation with
urgency "HIGH" stores MEDIUM; and the concrete creation with urgency
"__proto__" leaves the store unchanged and fails. -/
theorem c10_urgency_amended_witness :
    mapUrgency (some "URGENT") = some .MEDIUM ∧
    mapUrgency (some "toString") = none ∧
    some c10Created.urgency = mapUrgency c10Dto.urgency ∧
    ((ComplaintsService.create c10UserDb 1
        { c10Dto with urgency := some "__proto__" } 3).1 = c10UserDb ∧
      (ComplaintsService.create c10UserDb 1
        { c10Dto with urgency := some "__proto__" } 3).2.isOk = false) :=
  ⟨c10_urgency_amended.2.2.1 "URGENT" (by decide) (by decide),
   c10_urgency_amended.2.2.2.2.1 "toString" (by decide),
   c10_urgency_amended.2.2.2.2.2.1 c10UserDb 1 c10Dto 0 c10Created (by decide),
   c10_urgency_amended.2.2.2.2.2.2 c10UserDb 1
     { c10Dto with urgency := some "__proto__" } 3 (by decide)⟩

/-! ## C5 — pagination parameter validation -/

/-- C5 counterexample: `getAllComplaints` accepts `page=0` (no lower
bound is checked on page), and `getUserComplaints` accepts the
non-numeric `page=abc` (silently replaced by 1) together with
`limit=500` (silently clamped to 100); the claim requires a
ValidationError in all three situations. -/
theorem c5_counterexample :
    ComplaintsController.getAllComplaintsParams (some "0") (some "10") = .ok (0, 10) ∧
    ComplaintsController.getUserComplaintsParams (some "abc") (some "500") =
      .ok (1, 100) :=
  ⟨by decide, by decide⟩

/-- C5 amended: `getAllComplaints` throws ValidationError on a
non-numeric page or limit and on a limit outside [1, 100], but accepts
every numeric page (including values below 1); `getUserComplaints` never
throws — non-numeric or falsy parameters fall back to the defaults 1/10
and the values are clamped into range (page raised to at least 1, limit
clamped into [1, 100]). -/
theorem c5_amended :
    (∀ page limit,
      (ComplaintsController.getUserComplaintsParams page limit).isOk = true) ∧
    (∀ page limit a b,
      ComplaintsController.getUserComplaintsParams page limit = .ok (a, b) →
      1 ≤ a ∧ 1 ≤ b ∧ b ≤ 100) ∧
    (∀ page limit p l, queryParamParse page 1 = some p →
      queryParamParse limit 10 = some l → 1 ≤ l → l ≤ 100 →
      ComplaintsController.getAllComplaintsParams page limit = .ok (p, l)) ∧
    (∀ page limit, (queryParamParse page 1 = none ∨ queryParamParse limit 10 = none) →
      ComplaintsController.getAllComplaintsParams page limit =
        .error (.BadRequestException "Page and limit must be numeric values")) ∧
    (∀ page limit p l, queryParamParse page 1 = some p →
      queryParamParse limit 10 = some l → (l < 1 ∨ 100 < l) →
      ComplaintsController.getAllComplaintsParams page limit =
        .error (.BadRequestException "Limit must be between 1 and 100")) := by
  refine ⟨fun page limit => rfl, ?_, ?_, ?_, ?_⟩
  · intro page limit a b h
    unfold ComplaintsController.getUserComplaintsParams at h
    rw [Except.ok.injEq, Prod.mk.injEq] at h
    obtain ⟨ha, hb⟩ := h
    refine ⟨ha ▸ le_max_left 1 _, hb ▸ ?_, hb ▸ min_le_right _ _⟩
    exact le_min (le_max_left 1 _) (by norm_num)
  · intro page limit p l hp hl h1 h100
    unfold ComplaintsController.getAllComplaintsParams
    rw [hp, hl]
    dsimp only
    rw [if_neg (by
      simp only [Bool.or_eq_true, decide_eq_true_eq, not_or, not_lt]
      exact ⟨h1, h100⟩)]
  · intro page limit h
    unfold ComplaintsController.getAllComplaintsParams
    rcases h with h | h
    · rw [h]
    · rw [h]
      cases queryParamParse page 1 <;> rfl
  · intro page limit p l hp hl h
    unfold ComplaintsController.getAllComplaintsParams
    rw [hp, hl]
    dsimp only
    rw [if_pos (by
      rcases h with h | h <;> simp [h])]

/-- C5 amended witness: concrete parameter combinations for each
behavior. -/
theorem c5_amended_witness :
    (ComplaintsController.getUserComplaintsParams (some "7") (some "300")).isOk = true ∧
    (1 ≤ (9 : Int) ∧ 1 ≤ (100 : Int) ∧ (100 : Int) ≤ 100) ∧
    ComplaintsController.getAllComplaintsParams (some "-4") (some "50") = .ok (-4, 50) ∧
    ComplaintsController.getAllComplaintsParams (some "x") (some "50") =
      .error (.BadRequestException "Page and limit must be numeric values") ∧
    ComplaintsController.getAllComplaintsParams (some "2") (some "101") =
      .error (.BadRequestException "Limit must be between 1 and 100") :=
  ⟨c5_amended.1 (some "7") (some "300"),
   c5_amended.2.1 (some "9") (some "500") 9 100 (by decide),
   c5_amended.2.2.1 (some "-4") (some "50") (-4) 50 (by decide) (by decide)
     (by norm_num) (by norm_num),
   c5_amended.2.2.2.1 (some "x") (some "50") (Or.inl (by decide)),
   c5_amended.2.2.2.2 (some "2") (some "101") 2 101 (by decide) (by decide)
     (Or.inr (by norm_num))⟩

/-! ## C3 — assigning a non-assignable technician -/

/-- C3: for an existing complaint, if the technician id does not resolve
to a technician or resolves to one whose status is not ACTIVE, then
`assignTechnician` throws NotFound resp. BadRequest (the InvalidState
400) and the store — in particular the complaint's status and
`assignedAt` — is unchanged. -/
theorem c3_assign_inactive_fails (db : DB) (cid tid now : Nat) (c : Complaint)
    (hc : db.findComplaint cid = some c)
    (hbad : ∀ t, db.findTechnician tid = some t → t.status ≠ .ACTIVE) :
    (ComplaintsService.assignTechnician db cid tid now).1 = db ∧
    ((ComplaintsService.assignTechnician db cid tid now).2 =
        .error (.NotFoundException s!"Technician with ID {tid} not found") ∨
     (ComplaintsService.assignTechnician db cid tid now).2 =
        .error (.BadRequestException s!"Technician with ID {tid} is not active")) := by
  cases ht : db.findTechnician tid with
  | none =>
    constructor
    · simp only [ComplaintsService.assignTechnician, hc, ht]
    · left
      simp only [ComplaintsService.assignTechnician, hc, ht]
  | some t =>
    have hne : t.status ≠ .ACTIVE := hbad t ht
    constructor
    · simp only [ComplaintsService.assignTechnician, hc, ht, if_pos hne]
    · right
      simp only [ComplaintsService.assignTechnician, hc, ht, if_pos hne]

/-- C3 witness: assigning the INACTIVE technician 9 to complaint 1. -/
theorem c3_assign_inactive_fails_witness :
    (ComplaintsService.assignTechnician c3Db 1 9 0).1 = c3Db ∧
    ((ComplaintsService.assignTechnician c3Db 1 9 0).2 =
        .error (.NotFoundException s!"Technician with ID {9} not found") ∨
     (ComplaintsService.assignTechnician c3Db 1 9 0).2 =
        .error (.BadRequestException s!"Technician with ID {9} is not active")) :=
  c3_assign_inactive_fails c3Db 1 9 0 submittedComplaint (by decide)
    (fun t ht => by
      rw [show c3Db.findTechnician 9 = some c3Technician from by decide] at ht
      cases Option.some.inj ht
      decide)

/-! ## C1 — resolvedAt versus RESOLVED status -/

/-- C1 counterexample: after Create, UpdateStatus(RESOLVED) at time
1000 and UpdateStatus(SUBMITTED) at time 2000, the complaint's status is
SUBMITTED while `resolvedAt` is still 1000 — `updateComplaintStatus`
never clears `resolvedAt`, so the claimed if-and-only-if invariant fails
after a status update away from RESOLVED. -/
theorem c1_counterexample :
    (c1DbFinal.findComplaint 1).map Complaint.status = some .SUBMITTED ∧
    (c1DbFinal.findComplaint 1).bind Complaint.resolvedAt = some 1000 :=
  ⟨by decide, by decide⟩

/-- The row written by `updateComplaintStatus` always satisfies the
forward invariant: if its status is RESOLVED its `resolvedAt` is set. -/
theorem resolvedInv_updateStatusData (st : ComplaintStatus) (notes : Option String)
    (now : Nat) (c : Complaint) :
    resolvedInvB (updateStatusData st notes now c) = true := by
  cases st <;> by_cases hn : jsStrTruthy notes = true <;>
    simp [updateStatusData, resolvedInvB, hn]

/-- After `create`, the complaints table is unchanged (an error path) or
has gained the single new SUBMITTED row. -/
theorem create_complaints_cases (db : DB) (u : Nat) (dto : CreateComplaintDto)
    (now : Nat) :
    (ComplaintsService.create db u dto now).1.complaints = db.complaints ∨
    ∃ cat urg, (ComplaintsService.create db u dto now).1.complaints =
      db.complaints ++
        [{ id := db.nextComplaintId, userId := u, title := jsTrim dto.title,
           description := jsTrim dto.description, category := cat,
           urgency := urg, location := dto.locationData,
           photos := dto.photos, status := .SUBMITTED, assignedAt := none,
           resolvedAt := none, adminNotes := none, createdAt := now,
           updatedAt := now }] := by
  unfold ComplaintsService.create
  cases db.findUser u
  · exact Or.inl rfl
  · dsimp only
    split
    · exact Or.inl rfl
    · split
      · exact Or.inl rfl
      · split
        · exact Or.inl rfl
        · cases parseCategory (dto.category.getD "")
          · exact Or.inl rfl
          · cases mapUrgency dto.urgency
            · exact Or.inl rfl
            · exact Or.inr ⟨_, _, rfl⟩

/-- After `assignTechnician`, the complaints table is unchanged (an error
path) or is the table with the complaint's row updated to ASSIGNED. -/
theorem assign_complaints_cases (db : DB) (cid tid now : Nat) :
    (ComplaintsService.assignTechnician db cid tid now).1.complaints = db.complaints ∨
    (ComplaintsService.assignTechnician db cid tid now).1.complaints =
      db.complaints.map (fun x => if x.id == cid then
        { x with status := ComplaintStatus.ASSIGNED, assignedAt := some now }
        else x) := by
  unfold ComplaintsService.assignTechnician
  cases db.findComplaint cid
  · exact Or.inl rfl
  · dsimp only
    cases db.findTechnician tid
    · exact Or.inl rfl
    · dsimp only
      split
      · exact Or.inl rfl
      · cases (db.updateComplaint cid (fun c =>
            { c with status := ComplaintStatus.ASSIGNED, assignedAt := some now })).tasks.find?
            (fun t => t.complaintId == cid)
        · exact Or.inr rfl
        · exact Or.inr rfl

/-- After `updateComplaintStatus`, the complaints table is unchanged or
has the row rewritten by `updateStatusData`. -/
theorem update_complaints_cases (db : DB) (cid : Nat) (st : ComplaintStatus)
    (notes : Option String) (now : Nat) :
    (ComplaintsService.updateComplaintStatus db cid st notes now).1.complaints =
      db.complaints ∨
    (ComplaintsService.updateComplaintStatus db cid st notes now).1.complaints =
      db.complaints.map (fun x => if x.id == cid then
        updateStatusData st notes now x else x) := by
  unfold ComplaintsService.updateComplaintStatus
  cases db.findComplaint cid
  · exact Or.inl rfl
  · exact Or.inr rfl

/-- Membership in an id-conditional row rewrite preserves the invariant
when both the old rows and the rewritten row satisfy it. -/
theorem resolvedInv_mem_update (l : List Complaint) (cid : Nat)
    (f : Complaint → Complaint)
    (hl : ∀ x ∈ l, resolvedInvB x = true)
    (hf : ∀ x, resolvedInvB (f x) = true)
    (c : Complaint) (hc : c ∈ l.map (fun x => if x.id == cid then f x else x)) :
    resolvedInvB c = true := by
  rcases List.mem_map.mp hc with ⟨a, ha, rfl⟩
  by_cases hid : (a.id == cid) = true
  · rw [if_pos hid]
    exact hf a
  · rw [if_neg hid]
    exact hl a ha

/-- One lifecycle operation preserves the forward invariant. -/
theorem resolvedInv_step (db : DB) (op : LifecycleOp)
    (h : db.complaints.all resolvedInvB = true) :
    (applyLifecycleOp db op).complaints.all resolvedInvB = true := by
  rw [List.all_eq_true] at h ⊢
  intro c hc
  cases op with
  | createOp u dto now =>
    unfold applyLifecycleOp at hc
    rcases create_complaints_cases db u dto now with heq | ⟨cat, urg, heq⟩ <;>
      rw [heq] at hc
    · exact h c hc
    · rcases List.mem_append.mp hc with hmem | hnew
      · exact h c hmem
      · rw [List.mem_singleton] at hnew
        subst hnew
        rfl
  | assignOp cid tid now =>
    unfold applyLifecycleOp at hc
    rcases assign_complaints_cases db cid tid now with heq | heq <;>
      rw [heq] at hc
    · exact h c hc
    · exact resolvedInv_mem_update db.complaints cid
        (fun x => { x with status := ComplaintStatus.ASSIGNED, assignedAt := some now })
        h (fun x => rfl) c hc
  | updateOp cid st notes now =>
    unfold applyLifecycleOp at hc
    rcases update_complaints_cases db cid st notes now with heq | heq <;>
      rw [heq] at hc
    · exact h c hc
    · exact resolvedInv_mem_update db.complaints cid
        (updateStatusData st notes now) h
        (resolvedInv_updateStatusData st notes now) c hc

/-- C1 amended: across every sequence of Create, AssignTechnician and
UpdateStatus operations, a complaint with status RESOLVED has a non-null
`resolvedAt` (the forward direction of the claimed invariant). The
converse fails, because a status update away from RESOLVED leaves
`resolvedAt` set — see the counterexample. -/
theorem c1_amended (db : DB) (ops : List LifecycleOp)
    (h : db.complaints.all resolvedInvB = true) :
    (applyLifecycleOps db ops).complaints.all resolvedInvB = true := by
  induction ops generalizing db with
  | nil => exact h
  | cons op ops ih => exact ih (applyLifecycleOp db op) (resolvedInv_step db op h)

/-- C1 amended witness: the concrete create-then-resolve sequence. -/
theorem c1_amended_witness :
    (applyLifecycleOps c10UserDb
      [.createOp 1 c1Dto 0, .updateOp 1 .RESOLVED none 500]).complaints.all
        resolvedInvB = true :=
  c1_amended c10UserDb [.createOp 1 c1Dto 0, .updateOp 1 .RESOLVED none 500]
    (by decide)

/-! ## C8 — atomicity of lifecycle mutations -/

/-- C8 counterexample: with a failure injected at the Task write (write
1) of `assignTechnician`, the call throws, yet the complaint's status has
already been persisted as ASSIGNED and no Task row exists — the two
writes are sequential, not atomic. -/
theorem c8_counterexample :
    (ComplaintsService.assignTechnicianF c8fail c8Db 1 1 0).2 = .error .DbError ∧
    ((ComplaintsService.assignTechnicianF c8fail c8Db 1 1 0).1.findComplaint 1).map
      Complaint.status = some .ASSIGNED ∧
    (ComplaintsService.assignTechnicianF c8fail c8Db 1 1 0).1.tasks = [] :=
  ⟨by decide, by decide, by decide⟩

/-- C8 amended: `updateComplaintStatus` (a single persistence write) is
atomic — on any failure the store is unchanged. `assignTechnician` is
not: when no write fails it behaves exactly like the plain operation,
but a failure of the Task write after the successful complaint write
leaves the complaint ASSIGNED with the task table untouched. -/
theorem c8_amended :
    (∀ (fail : Nat → Bool) (db : DB) (id2 : Nat) (st : ComplaintStatus)
        (notes : Option String) (now : Nat) (e : AppError),
      (ComplaintsService.updateComplaintStatusF fail db id2 st notes now).2 =
          .error e →
      (ComplaintsService.updateComplaintStatusF fail db id2 st notes now).1 = db) ∧
    (∀ (fail : Nat → Bool) (db : DB) (cid tid now : Nat),
      fail 0 = false → fail 1 = false →
      ComplaintsService.assignTechnicianF fail db cid tid now =
        ComplaintsService.assignTechnician db cid tid now) ∧
    (∀ (fail : Nat → Bool) (db : DB) (cid tid now : Nat) (c : Complaint)
        (t : Technician),
      db.findComplaint cid = some c → db.findTechnician tid = some t →
      t.status = .ACTIVE → fail 0 = false → fail 1 = true →
      (ComplaintsService.assignTechnicianF fail db cid tid now).2 =
          .error .DbError ∧
      ((ComplaintsService.assignTechnicianF fail db cid tid now).1.findComplaint
          cid).map Complaint.status = some .ASSIGNED ∧
      (ComplaintsService.assignTechnicianF fail db cid tid now).1.tasks =
        db.tasks) := by
  refine ⟨?_, ?_, ?_⟩
  · intro fail db id2 st notes now e h
    cases hfc : db.findComplaint id2 with
    | none => simp [ComplaintsService.updateComplaintStatusF, hfc]
    | some c =>
      cases hf : fail 0 with
      | true => simp [ComplaintsService.updateComplaintStatusF, hfc, hf]
      | false => simp [ComplaintsService.updateComplaintStatusF, hfc, hf] at h
  · intro fail db cid tid now h0 h1
    cases hfc : db.findComplaint cid with
    | none =>
      simp [ComplaintsService.assignTechnicianF,
        ComplaintsService.assignTechnician, hfc]
    | some c =>
      cases hft : db.findTechnician tid with
      | none =>
        simp [ComplaintsService.assignTechnicianF,
          ComplaintsService.assignTechnician, hfc, hft]
      | some t =>
        by_cases hact : t.status = TechnicianStatus.ACTIVE
        · simp [ComplaintsService.assignTechnicianF,
            ComplaintsService.assignTechnician, hfc, hft, hact, h0, h1]
        · simp [ComplaintsService.assignTechnicianF,
            ComplaintsService.assignTechnician, hfc, hft, hact]
  · intro fail db cid tid now c t hfc hft hact h0 h1
    have hmain : ComplaintsService.assignTechnicianF fail db cid tid now =
        (db.updateComplaint cid (fun x =>
          { x with status := ComplaintStatus.ASSIGNED, assignedAt := some now }),
         .error .DbError) := by
      cases hfind : (db.updateComplaint cid (fun x =>
          { x with status := ComplaintStatus.ASSIGNED, assignedAt := some now })).tasks.find?
          (fun t2 => t2.complaintId == cid) with
      | none =>
        simp [ComplaintsService.assignTechnicianF, hfc, hft, hact, h0, h1, hfind]
      | some et =>
        simp [ComplaintsService.assignTechnicianF, hfc, hft, hact, h0, h1, hfind]
    rw [hmain]
    refine ⟨rfl, ?_, rfl⟩
    rw [findComplaint_updateComplaint db cid (fun x =>
      { x with status := ComplaintStatus.ASSIGNED, assignedAt := some now })
      (fun x => rfl), hfc]
    rfl

/-- C8 amended witness: concrete instantiations of all three parts. -/
theorem c8_amended_witness :
    (ComplaintsService.updateComplaintStatusF (fun _ => true) c9Db 10
      .RESOLVED none 0).1 = c9Db ∧
    ComplaintsService.assignTechnicianF (fun _ => false) c8Db 1 1 0 =
      ComplaintsService.assignTechnician c8Db 1 1 0 ∧
    ((ComplaintsService.assignTechnicianF c8fail c8Db 1 1 7).2 =
        .error .DbError ∧
      ((ComplaintsService.assignTechnicianF c8fail c8Db 1 1 7).1.findComplaint
          1).map Complaint.status = some .ASSIGNED ∧
      (ComplaintsService.assignTechnicianF c8fail c8Db 1 1 7).1.tasks =
        c8Db.tasks) :=
  ⟨c8_amended.1 (fun _ => true) c9Db 10 .RESOLVED none 0 .DbError (by decide),
   c8_amended.2.1 (fun _ => false) c8Db 1 1 0 rfl rfl,
   c8_amended.2.2 c8fail c8Db 1 1 7 submittedComplaint c2TechA
     (by decide) (by decide) rfl rfl rfl⟩

/-! ## C2 — idempotent technician assignment -/

/-- `assignTechnician` when the checks pass and the complaint has no
task: the complaint row is updated to ASSIGNED and one fresh task is
appended. -/
theorem assignTechnician_create_eq (db : DB) (cid tid now : Nat)
    (c : Complaint) (t : Technician)
    (hc : db.findComplaint cid = some c)
    (ht : db.findTechnician tid = some t)
    (hact : t.status = .ACTIVE)
    (hfind : db.tasks.find? (fun x => x.complaintId == cid) = none) :
    ComplaintsService.assignTechnician db cid tid now =
      ({ db with
          complaints := db.complaints.map (fun x => if x.id == cid then
            { x with status := ComplaintStatus.ASSIGNED, assignedAt := some now } else x)
          tasks := db.tasks ++
            [{ id := db.nextTaskId, complaintId := cid, technicianId := tid,
               assignedAt := now, updatedAt := now }]
          nextTaskId := db.nextTaskId + 1 },
       .ok { id := db.nextTaskId, complaintId := cid, technicianId := tid,
             assignedAt := now, updatedAt := now }) := by
  have hfind1 : (db.updateComplaint cid (fun x =>
      { x with status := ComplaintStatus.ASSIGNED, assignedAt := some now })).tasks.find?
      (fun x => x.complaintId == cid) = none := hfind
  simp [ComplaintsService.assignTechnician, hc, ht, hact, hfind1, hfind,
    DB.updateComplaint]

/-- `assignTechnician` when the checks pass and the complaint already has
a task: the complaint row is updated to ASSIGNED and the existing task is
re-pointed in place — no task is created. -/
theorem assignTechnician_update_eq (db : DB) (cid tid now : Nat)
    (c : Complaint) (t : Technician) (et : Task)
    (hc : db.findComplaint cid = some c)
    (ht : db.findTechnician tid = some t)
    (hact : t.status = .ACTIVE)
    (hfind : db.tasks.find? (fun x => x.complaintId == cid) = some et) :
    ComplaintsService.assignTechnician db cid tid now =
      ({ db with
          complaints := db.complaints.map (fun x => if x.id == cid then
            { x with status := ComplaintStatus.ASSIGNED, assignedAt := some now } else x)
          tasks := db.tasks.map (fun x => if x.id == et.id then
            { id := et.id, complaintId := et.complaintId, technicianId := tid,
              assignedAt := now, updatedAt := now } else x) },
       .ok { id := et.id, complaintId := et.complaintId, technicianId := tid,
             assignedAt := now, updatedAt := now }) := by
  have hfind1 : (db.updateComplaint cid (fun x =>
      { x with status := ComplaintStatus.ASSIGNED, assignedAt := some now })).tasks.find?
      (fun x => x.complaintId == cid) = some et := hfind
  simp [ComplaintsService.assignTechnician, hc, ht, hact, hfind1, hfind,
    DB.updateComplaint]

/-- C2: assigning technician A and then technician B to a complaint that
starts with no task leaves exactly one task row for that complaint, and
it points to B — the second call updated the first call's task in place. -/
theorem c2_assign_idempotent (db : DB) (cid a b now1 now2 : Nat)
    (c : Complaint) (ta tb : Technician)
    (hc : db.findComplaint cid = some c)
    (hta : db.findTechnician a = some ta) (hsa : ta.status = .ACTIVE)
    (htb : db.findTechnician b = some tb) (hsb : tb.status = .ACTIVE)
    (hnone : db.tasks.find? (fun x => x.complaintId == cid) = none)
    (hfresh : ∀ x ∈ db.tasks, (x.id == db.nextTaskId) = false) :
    ((ComplaintsService.assignTechnician
        (ComplaintsService.assignTechnician db cid a now1).1 cid b now2).1.tasks.filter
      (fun x => x.complaintId == cid)) =
    [{ id := db.nextTaskId, complaintId := cid, technicianId := b,
       assignedAt := now2, updatedAt := now2 }] := by
  rw [assignTechnician_create_eq db cid a now1 c ta hc hta hsa hnone]
  have hfind2 : ((db.tasks ++
      [({ id := db.nextTaskId, complaintId := cid, technicianId := a,
          assignedAt := now1, updatedAt := now1 } : Task)]).find?
      (fun x => x.complaintId == cid)) =
      some ({ id := db.nextTaskId, complaintId := cid, technicianId := a,
              assignedAt := now1, updatedAt := now1 } : Task) := by
    rw [List.find?_append, hnone]
    simp
  have hc2 : ({ db with
      complaints := db.complaints.map (fun x => if x.id == cid then
        { x with status := ComplaintStatus.ASSIGNED, assignedAt := some now1 } else x)
      tasks := db.tasks ++
        [({ id := db.nextTaskId, complaintId := cid, technicianId := a,
            assignedAt := now1, updatedAt := now1 } : Task)]
      nextTaskId := db.nextTaskId + 1 } : DB).findComplaint cid =
      some { c with status := ComplaintStatus.ASSIGNED, assignedAt := some now1 } := by
    have h := findComplaint_updateComplaint db cid (fun x =>
      { x with status := ComplaintStatus.ASSIGNED, assignedAt := some now1 })
      (fun x => rfl)
    rw [hc] at h
    exact h
  rw [assignTechnician_update_eq _ cid b now2
    { c with status := ComplaintStatus.ASSIGNED, assignedAt := some now1 } tb
    ({ id := db.nextTaskId, complaintId := cid, technicianId := a,
       assignedAt := now1, updatedAt := now1 } : Task)
    hc2 htb hsb hfind2]
  show ((db.tasks ++
      [({ id := db.nextTaskId, complaintId := cid, technicianId := a,
          assignedAt := now1, updatedAt := now1 } : Task)]).map (fun x =>
        if x.id == db.nextTaskId then
          ({ id := db.nextTaskId, complaintId := cid, technicianId := b,
             assignedAt := now2, updatedAt := now2 } : Task) else x)).filter
      (fun x => x.complaintId == cid) =
    [({ id := db.nextTaskId, complaintId := cid, technicianId := b,
        assignedAt := now2, updatedAt := now2 } : Task)]
  rw [List.map_append, List.filter_append]
  have hmapfix : db.tasks.map (fun x =>
      if x.id == db.nextTaskId then
        ({ id := db.nextTaskId, complaintId := cid, technicianId := b,
           assignedAt := now2, updatedAt := now2 } : Task) else x) = db.tasks := by
    have h1 : ∀ x ∈ db.tasks, (fun x =>
        if x.id == db.nextTaskId then
          ({ id := db.nextTaskId, complaintId := cid, technicianId := b,
             assignedAt := now2, updatedAt := now2 } : Task) else x) x = id x := by
      intro x hx
      show (if (x.id == db.nextTaskId) = true then _ else x) = x
      rw [if_neg (by simp [hfresh x hx])]
    rw [List.map_congr_left h1, List.map_id]
  rw [hmapfix]
  rw [List.filter_eq_nil_iff.mpr (fun x hx => List.find?_eq_none.mp hnone x hx)]
  simp

/-- C2 witness: assigning technicians 1 and then 7 to complaint 1 of a
store with no tasks leaves exactly one task row, pointing at 7. -/
theorem c2_assign_idempotent_witness :
    ((ComplaintsService.assignTechnician
        (ComplaintsService.assignTechnician c2Db 1 1 10).1 1 7 20).1.tasks.filter
      (fun x => x.complaintId == 1)) =
    [{ id := 1, complaintId := 1, technicianId := 7,
       assignedAt := 20, updatedAt := 20 }] :=
  c2_assign_idempotent c2Db 1 1 7 10 20 submittedComplaint c2TechA c2TechB
    (by decide) (by decide) rfl (by decide) rfl (by decide) (by decide)

/-! ## C7 — login lockout -/

/-- A failed login below the attempt cap: `login` with a wrong password
throws Unauthorized and the store gains one failed attempt. -/
theorem login_failed_step (db : DB) (u : User) (e wrongPw : String) (now : Nat)
    (hu : db.findUserByEmail e = some u)
    (hnorm : normalizeEmail e = e)
    (he : e.isEmpty = false) (hp : wrongPw.isEmpty = false)
    (hlt : u.loginAttempts < AuthService.MAX_LOGIN_ATTEMPTS)
    (hw : wrongPw ≠ u.password) :
    AuthService.login db ⟨e, wrongPw⟩ now =
      (AuthService.handleFailedLogin db e now,
       .error (.UnauthorizedException "Invalid credentials")) := by
  cases hl : u.lastLoginAttempt with
  | none =>
    simp [AuthService.login, he, hp, hnorm, hu, hl, AuthService.loginTail, hw]
  | some t0 =>
    have hnl : ¬ (u.loginAttempts ≥ AuthService.MAX_LOGIN_ATTEMPTS) := by omega
    simp [AuthService.login, he, hp, hnorm, hu, hl, hnl, AuthService.loginTail, hw]

/-- `handleFailedLogin` increments the stored counter and stamps the
attempt time of the user with that email. -/
theorem handleFailedLogin_findUser (db : DB) (u : User) (e : String) (now : Nat)
    (hu : db.findUserByEmail e = some u) :
    (AuthService.handleFailedLogin db e now).findUserByEmail e =
      some { u with loginAttempts := u.loginAttempts + 1,
                    lastLoginAttempt := some now } := by
  simp only [AuthService.handleFailedLogin, hu]
  rw [findUserByEmail_updateUser db u.id e (fun w =>
    { w with loginAttempts := w.loginAttempts + 1, lastLoginAttempt := some now })
    (fun w => rfl), hu]
  simp

/-- Successful tail of `login`: with a matching password the call
succeeds, and the stored row ends with zero attempts, no attempt stamp
and `lastLogin` set. -/
theorem loginTail_success_findUser (db : DB) (u2 uf : User) (e : String)
    (dto : LoginDto) (now : Nat)
    (hu : db.findUserByEmail e = some uf)
    (hid : uf.id = u2.id)
    (hpw2 : dto.password = u2.password) :
    (AuthService.loginTail db u2 dto e now).2 = .ok () ∧
    (AuthService.loginTail db u2 dto e now).1.findUserByEmail e =
      some { uf with loginAttempts := 0, lastLoginAttempt := none,
                     lastLogin := some now } := by
  unfold AuthService.loginTail
  rw [if_neg (by simp [hpw2])]
  refine ⟨rfl, ?_⟩
  show (((AuthService.resetLoginAttempts db u2.id).updateUser u2.id
    (fun w => { w with lastLogin := some now })).findUserByEmail e) = _
  rw [findUserByEmail_updateUser (AuthService.resetLoginAttempts db u2.id) u2.id e
    (fun w => { w with lastLogin := some now }) (fun w => rfl)]
  show (((db.updateUser u2.id (fun w =>
    { w with loginAttempts := 0, lastLoginAttempt := none })).findUserByEmail e).map _) = _
  rw [findUserByEmail_updateUser db u2.id e (fun w =>
    { w with loginAttempts := 0, lastLoginAttempt := none }) (fun w => rfl), hu]
  simp [hid]

/-- C7: five consecutive failed logins drive the stored counter to 5 with
the fifth attempt time stamped; a sixth attempt within the 15-minute
window then fails with the locked message carrying the remaining minutes
even though the password is correct; an attempt after the window expires
succeeds and resets the counter. -/
theorem c7_login_lockout (db : DB) (u : User) (e pw wrongPw : String)
    (t1 t2 t3 t4 t5 t6 : Nat)
    (hu : db.findUserByEmail e = some u)
    (hnorm : normalizeEmail e = e)
    (he : e.isEmpty = false) (hpw : pw.isEmpty = false)
    (hwp : wrongPw.isEmpty = false)
    (hattempts : u.loginAttempts = 0)
    (hcorrect : u.password = pw) (hwrong : wrongPw ≠ pw) :
    (loginRuns db e wrongPw [t1, t2, t3, t4, t5]).findUserByEmail e =
      some { u with loginAttempts := 5, lastLoginAttempt := some t5 } ∧
    (t6 - t5 < AuthService.LOGIN_TIMEOUT_MS →
      AuthService.login (loginRuns db e wrongPw [t1, t2, t3, t4, t5]) ⟨e, pw⟩ t6 =
        (loginRuns db e wrongPw [t1, t2, t3, t4, t5],
         .error (.UnauthorizedException (lockMessage (t6 - t5))))) ∧
    (AuthService.LOGIN_TIMEOUT_MS ≤ t6 - t5 →
      (AuthService.login (loginRuns db e wrongPw [t1, t2, t3, t4, t5]) ⟨e, pw⟩
        t6).2 = .ok () ∧
      (AuthService.login (loginRuns db e wrongPw [t1, t2, t3, t4, t5]) ⟨e, pw⟩
        t6).1.findUserByEmail e =
        some { u with loginAttempts := 0, lastLoginAttempt := none,
                      lastLogin := some t6 }) := by
  have hwp' : wrongPw ≠ u.password := by rw [hcorrect]; exact hwrong
  have s1 := login_failed_step db u e wrongPw t1 hu hnorm he hwp
    (by simp [AuthService.MAX_LOGIN_ATTEMPTS, hattempts]) hwp'
  have hu1 : (AuthService.handleFailedLogin db e t1).findUserByEmail e =
      some { u with loginAttempts := 1, lastLoginAttempt := some t1 } := by
    have h := handleFailedLogin_findUser db u e t1 hu
    rw [hattempts] at h
    exact h
  have s2 := login_failed_step (AuthService.handleFailedLogin db e t1)
    { u with loginAttempts := 1, lastLoginAttempt := some t1 } e wrongPw t2
    hu1 hnorm he hwp (by simp [AuthService.MAX_LOGIN_ATTEMPTS]) hwp'
  have hu2 : (AuthService.handleFailedLogin (AuthService.handleFailedLogin db e t1)
      e t2).findUserByEmail e =
      some { u with loginAttempts := 2, lastLoginAttempt := some t2 } :=
    handleFailedLogin_findUser _ _ e t2 hu1
  have s3 := login_failed_step _
    { u with loginAttempts := 2, lastLoginAttempt := some t2 } e wrongPw t3
    hu2 hnorm he hwp (by simp [AuthService.MAX_LOGIN_ATTEMPTS]) hwp'
  have hu3 : (AuthService.handleFailedLogin (AuthService.handleFailedLogin
      (AuthService.handleFailedLogin db e t1) e t2) e t3).findUserByEmail e =
      some { u with loginAttempts := 3, lastLoginAttempt := some t3 } :=
    handleFailedLogin_findUser _ _ e t3 hu2
  have s4 := login_failed_step _
    { u with loginAttempts := 3, lastLoginAttempt := some t3 } e wrongPw t4
    hu3 hnorm he hwp (by simp [AuthService.MAX_LOGIN_ATTEMPTS]) hwp'
  have hu4 : (AuthService.handleFailedLogin (AuthService.handleFailedLogin
      (AuthService.handleFailedLogin (AuthService.handleFailedLogin db e t1) e t2)
      e t3) e t4).findUserByEmail e =
      some { u with loginAttempts := 4, lastLoginAttempt := some t4 } :=
    handleFailedLogin_findUser _ _ e t4 hu3
  have s5 := login_failed_step _
    { u with loginAttempts := 4, lastLoginAttempt := some t4 } e wrongPw t5
    hu4 hnorm he hwp (by simp [AuthService.MAX_LOGIN_ATTEMPTS]) hwp'
  have hu5 : (AuthService.handleFailedLogin (AuthService.handleFailedLogin
      (AuthService.handleFailedLogin (AuthService.handleFailedLogin
      (AuthService.handleFailedLogin db e t1) e t2) e t3) e t4) e t5).findUserByEmail
      e = some { u with loginAttempts := 5, lastLoginAttempt := some t5 } :=
    handleFailedLogin_findUser _ _ e t5 hu4
  have hrun : loginRuns db e wrongPw [t1, t2, t3, t4, t5] =
      AuthService.handleFailedLogin (AuthService.handleFailedLogin
      (AuthService.handleFailedLogin (AuthService.handleFailedLogin
      (AuthService.handleFailedLogin db e t1) e t2) e t3) e t4) e t5 := by
    simp only [loginRuns, s1, s2, s3, s4, s5]
  refine ⟨?_, ?_, ?_⟩
  · rw [hrun]
    exact hu5
  · intro hwin
    rw [hrun]
    simp [AuthService.login, he, hpw, hnorm, hu5, hwin,
      AuthService.MAX_LOGIN_ATTEMPTS]
  · intro hexp
    have hnotwin : ¬ (t6 - t5 < AuthService.LOGIN_TIMEOUT_MS) := not_lt.mpr hexp
    rw [hrun]
    have hloginEq : AuthService.login (AuthService.handleFailedLogin
        (AuthService.handleFailedLogin (AuthService.handleFailedLogin
        (AuthService.handleFailedLogin (AuthService.handleFailedLogin db e t1)
        e t2) e t3) e t4) e t5) ⟨e, pw⟩ t6 =
        AuthService.loginTail (AuthService.resetLoginAttempts
          (AuthService.handleFailedLogin (AuthService.handleFailedLogin
          (AuthService.handleFailedLogin (AuthService.handleFailedLogin
          (AuthService.handleFailedLogin db e t1) e t2) e t3) e t4) e t5)
          ({ u with loginAttempts := 5, lastLoginAttempt := some t5 } : User).id)
        { u with loginAttempts := 5, lastLoginAttempt := some t5 } ⟨e, pw⟩ e t6 := by
      simp [AuthService.login, he, hpw, hnorm, hu5, hnotwin,
        AuthService.MAX_LOGIN_ATTEMPTS]
    rw [hloginEq]
    have hufound : (AuthService.resetLoginAttempts (AuthService.handleFailedLogin
        (AuthService.handleFailedLogin (AuthService.handleFailedLogin
        (AuthService.handleFailedLogin (AuthService.handleFailedLogin db e t1)
        e t2) e t3) e t4) e t5)
        ({ u with loginAttempts := 5, lastLoginAttempt := some t5 } : User).id).findUserByEmail
        e = some { u with loginAttempts := 0, lastLoginAttempt := none } := by
      unfold AuthService.resetLoginAttempts
      rw [findUserByEmail_updateUser _ _ e (fun w =>
        { w with loginAttempts := 0, lastLoginAttempt := none }) (fun w => rfl), hu5]
      simp
    have hmain := loginTail_success_findUser _
      { u with loginAttempts := 5, lastLoginAttempt := some t5 }
      { u with loginAttempts := 0, lastLoginAttempt := none } e ⟨e, pw⟩ t6
      hufound rfl (by simpa using hcorrect.symm)
    exact ⟨hmain.1, hmain.2⟩

/-- C7 witness: the concrete user locks after five failures at times
10..50; at time 51 the correct password is rejected with the remaining
14.98-minutes-rounded-up message; at time 900050 (window expired) it
succeeds. -/
theorem c7_login_lockout_witness :
    (loginRuns c7Db "a@b.co" "badpass" [10, 20, 30, 40, 50]).findUserByEmail
      "a@b.co" =
      some { c7User with loginAttempts := 5, lastLoginAttempt := some 50 } ∧
    AuthService.login (loginRuns c7Db "a@b.co" "badpass" [10, 20, 30, 40, 50])
      ⟨"a@b.co", "goodpass1"⟩ 51 =
      (loginRuns c7Db "a@b.co" "badpass" [10, 20, 30, 40, 50],
       .error (.UnauthorizedException (lockMessage (51 - 50)))) ∧
    (AuthService.login (loginRuns c7Db "a@b.co" "badpass" [10, 20, 30, 40, 50])
      ⟨"a@b.co", "goodpass1"⟩ 900050).2 = .ok () :=
  ⟨(c7_login_lockout c7Db c7User "a@b.co" "goodpass1" "badpass" 10 20 30 40 50 51
      (by decide) (by decide) (by decide) (by decide) (by decide) rfl rfl
      (by decide)).1,
   (c7_login_lockout c7Db c7User "a@b.co" "goodpass1" "badpass" 10 20 30 40 50 51
      (by decide) (by decide) (by decide) (by decide) (by decide) rfl rfl
      (by decide)).2.1 (by decide),
   ((c7_login_lockout c7Db c7User "a@b.co" "goodpass1" "badpass" 10 20 30 40 50
      900050 (by decide) (by decide) (by decide) (by decide) (by decide) rfl rfl
      (by decide)).2.2 (by decide)).1⟩

end Shega
